import Mathlib

/-
Verification of the PoE2 chicken-bot resource-tracking core (src/main.py).

The embedding models the single source file faithfully:
  * `Resource.calculate_address` (lines 67-82) becomes `calculate_address`,
    with the surrounding `pymem` process state abstracted as the module-base
    lookup result (`Option Int`; `none` models `module_from_name` returning
    None, whose `.lpBaseOfDll` access raises) and an 8-byte read oracle
    `Int → Option Int` (`none` models `pymem.exception.MemoryReadError`).
  * `ChickenBot` instance state (ESCAPED, is_monitoring, pointer, pm, hwnd)
    plus the global keyboard-hook state becomes the structure `Bot`.
  * Each external interaction of one loop iteration is drawn from an `Env`
    record: process-open outcome, FindWindow result, module base, memory
    read oracles, the GUI's selected resource and threshold entry, the
    PostMessage outcome and the wall-clock time (milliseconds, so the
    2.0-second backend interval is 2000).
  * Python exceptions are `Except` values; a `try`/`except` around stateful
    code carries the state at the raise point in the error payload, so that
    mutations made before the raise survive, exactly as in Python.
-/

namespace ChickenBot

/-- Embeds the `Resource` class (src/main.py lines 57-65): name, base,
ordered offsets and the (default) threshold. Addresses and values are `Int`
since Python integers are unbounded. -/
structure Resource where
  name : String
  base : Int
  offsets : List Int
  threshold : Int
deriving Repr, DecidableEq

/-- Embeds the RESOURCE_CONFIG dictionary (src/main.py lines 34-50) as built
by `GUI.__init__` (line 124-127). The GUI's radio buttons only ever produce
the keys "hp", "mp", "ms", so the Python dict lookup is modelled as a total
function over those keys. -/
def RESOURCE_CONFIG (key : String) : Resource :=
  if key = "hp" then ⟨"hp", 0x03B9AD28, [0x98, 0x68, 0x474], 500⟩
  else if key = "mp" then ⟨"mp", 0x03B9AD28, [0x58, 0x60, 0xF80], 500⟩
  else ⟨"ms", 0x03B9AD28, [0x58, 0x60, 0x78C], 10⟩

/-- The `backend_interval = 2.0` seconds of `resource_monitor_loop`
(line 505), in milliseconds. -/
def backend_interval : Int := 2000

/-- Global keyboard-hook state of the `keyboard` library: whether a blocking
hook is currently installed for the escape and the space key. -/
structure KeyState where
  esc : Bool
  space : Bool
deriving Repr, DecidableEq

/-- The two keys the bot manipulates ('esc' and 'space'). -/
inductive Key where
  | esc
  | space
deriving Repr, DecidableEq

/-- Whether a blocking hook is installed for `k`. -/
def is_blocked (s : KeyState) : Key → Bool
  | Key.esc => s.esc
  | Key.space => s.space

/-- Update the hook state of one key. -/
def set_blocked (s : KeyState) (k : Key) (v : Bool) : KeyState :=
  match k with
  | Key.esc => { s with esc := v }
  | Key.space => { s with space := v }

/-- `keyboard.block_key(k)`: installs a suppression hook for `k`
(total; re-blocking an already blocked key just replaces the hook). -/
def block_key (k : Key) (s : KeyState) : KeyState :=
  set_blocked s k true

/-- `keyboard.unblock_key(k)`: removes the hook for `k`; raises `KeyError`
when no hook is installed (the dictionary lookup of the hook fails), which
is exactly the exception `ChickenBot.unblock_keys` guards against. The
error payload is the (unchanged) state at the raise point. -/
def unblock_key (k : Key) (s : KeyState) : Except KeyState KeyState :=
  if is_blocked s k then Except.ok (set_blocked s k false) else Except.error s

/-- Embeds `ChickenBot.unblock_keys` (src/main.py lines 594-606): one
`try` block unblocking 'esc' then 'space', with `except KeyError: pass`.
If unblocking 'esc' raises, the 'space' unblock is skipped. -/
def unblock_keys (s : KeyState) : KeyState :=
  match unblock_key Key.esc s with
  | Except.error s1 => s1
  | Except.ok s1 =>
    match unblock_key Key.space s1 with
    | Except.error s2 => s2
    | Except.ok s2 => s2

/-- Embeds `ChickenBot._kb_panic` (lines 584-592): block 'esc', block
'space'. The 2-second unblock Timer is modelled as a separate
`Reachable.timer` transition firing at an arbitrary later point. -/
def kb_panic (s : KeyState) : KeyState :=
  block_key Key.space (block_key Key.esc s)

/-- The external interactions available to one step of the bot: outcome of
`pymem.Pymem(PROCESS_NAME)`, the `FindWindow` result (`0` = not found), the
`module_from_name` result (`none` = lookup fails, so `.lpBaseOfDll`
raises), the 8-byte and 4-byte memory-read oracles (`none` = the read
raises), the GUI's currently selected resource key and the parse result of
its threshold entry text (`none` = `int(text)` raises `ValueError`), the
`PostMessage` outcome, and the `time()` reading in milliseconds. -/
structure Env where
  procOpen : Bool
  findWindow : Int
  moduleBase : Option Int
  readLonglong : Int → Option Int
  readInt : Int → Option Int
  selectedResource : String
  thresholdText : Option Int
  postOk : Bool
  time : Int

/-- The mutable `ChickenBot` instance state (lines 407-414) together with
the global keyboard-hook state: `ESCAPED`, `is_monitoring`, `pointer`
(`none` = Python `None`), whether `pm` holds a process handle, `hwnd`
(`none` = Python `None`), and the key hooks. -/
structure Bot where
  escaped : Bool
  is_monitoring : Bool
  pointer : Option Int
  pm : Bool
  hwnd : Option Int
  keys : KeyState
deriving Repr, DecidableEq

/-- The state right after `ChickenBot.__init__` (lines 407-414): nothing
attached, nothing escaped, no keys blocked. -/
def initBot : Bot :=
  ⟨false, false, none, false, none, ⟨false, false⟩⟩

/-- The loop body of `Resource.calculate_address` (lines 77-81): for each
offset in order, try an 8-byte read at the current address; on success the
address becomes readValue + offset, on `MemoryReadError` it is left
unchanged and the next offset is processed. -/
def walk_offsets (rl : Int → Option Int) : Int → List Int → Int
  | addr, [] => addr
  | addr, off :: rest =>
    walk_offsets rl
      (match rl addr with
       | some v => v + off
       | none => addr) rest

/-- Embeds `Resource.calculate_address` (lines 67-82). It first looks the
module up by name and reads `.lpBaseOfDll`; when `module_from_name` yields
no module this attribute access raises (nothing in the function catches
it), which the `Except.error` branch records. Otherwise it walks the
offset chain starting from moduleBase + self.base and always returns the
final address. -/
def calculate_address (moduleBase : Option Int) (rl : Int → Option Int) (r : Resource) :
    Except Unit Int :=
  match moduleBase with
  | none => Except.error ()
  | some base_address => Except.ok (walk_offsets rl (base_address + r.base) r.offsets)

/-- Embeds `ChickenBot.get_threshold` (lines 470-483): `int()` of the
GUI threshold entry, falling back to the selected resource's stored
threshold on `ValueError`. -/
def get_threshold (e : Env) : Int :=
  match e.thresholdText with
  | some n => n
  | none => (RESOURCE_CONFIG e.selectedResource).threshold

/-- Embeds `ChickenBot.setup_pointer` (lines 536-545): recompute the
pointer for the currently selected resource and store it. A raise inside
`calculate_address` propagates with the bot unchanged (the assignment to
`self.pointer` never happens). -/
def setup_pointer (e : Env) (b : Bot) : Except Bot Bot :=
  match calculate_address e.moduleBase e.readLonglong (RESOURCE_CONFIG e.selectedResource) with
  | Except.ok addr => Except.ok { b with pointer := some addr }
  | Except.error _ => Except.error b

/-- Embeds `ChickenBot._setup_backend` (lines 416-437). Step 1: open the
process (`pymem.Pymem`, its own try/except: on failure report and return
None, i.e. `ok (b, false)` with nothing changed). Step 2: `FindWindow`; a
zero handle reports and returns None, with `pm` already reassigned.
Step 3: store the window handle, run `setup_pointer` (whose raise
propagates out of `_setup_backend`), and `return True`. -/
def setup_backend (e : Env) (b : Bot) : Except Bot (Bot × Bool) :=
  if e.procOpen = false then Except.ok (b, false)
  else
    let b1 := { b with pm := true }
    if e.findWindow = 0 then Except.ok (b1, false)
    else
      let b2 := { b1 with hwnd := some e.findWindow }
      match setup_pointer e b2 with
      | Except.ok b3 => Except.ok (b3, true)
      | Except.error b3 => Except.error b3

/-- Embeds `ChickenBot.stop_monitor` (lines 439-452): clear
`is_monitoring`, clear `ESCAPED`, run `unblock_keys` on the current hook
state (the GUI updates have no core-state effect). -/
def stop_monitor (b : Bot) : Bot :=
  { b with is_monitoring := false, escaped := false, keys := unblock_keys b.keys }

/-- Embeds `ChickenBot.panic` (lines 570-582): `PostMessage` of the escape
key-down, then `_kb_panic` (blocking both keys), then `ESCAPED = True`.
When `PostMessage` raises, the handler reports and sets
`is_monitoring = False`, leaving `ESCAPED` and the key hooks untouched. -/
def panic (e : Env) (b : Bot) : Bot :=
  if e.postOk then { b with keys := kb_panic b.keys, escaped := true }
  else { b with is_monitoring := false }

/-- Embeds `ChickenBot.read_resource_value` (lines 608-617):
`self.pm.read_int(addr)` with every exception absorbed into the value 0 —
a missing process handle (`pm` is None), a `None` address, and a failing
read all raise and are caught. -/
def read_resource_value (e : Env) (b : Bot) : Int :=
  match b.pm, b.pointer with
  | true, some a =>
    match e.readInt a with
    | some v => v
    | none => 0
  | _, _ => 0

/-- Lines 517-522 of `resource_monitor_loop`: the escape / reset branch.
Returns the updated bot and the number of `panic` invocations (0 or 1).
`v` is the already-coerced integer sample (`int()` of the value read by
`read_resource_value` is the identity, since `read_int` returns an
integer whenever it returns at all). -/
def escape_step (threshold : Int) (e : Env) (b : Bot) (v : Int) : Bot × Nat :=
  if v ≤ threshold ∧ b.escaped = false then (panic e b, 1)
  else if threshold < v ∧ b.escaped = true then ({ b with escaped := false }, 0)
  else (b, 0)

/-- Lines 524-532 of `resource_monitor_loop`: the throttled reattachment.
Returns the updated bot, whether a reattachment was attempted, and the new
`last_backend_setup`. The guard reads `self.ESCAPED` after the escape
branch has updated it. `last_backend_setup = current_time` runs only when
`_setup_backend` returns normally; when it raises, `except Exception:
pass` swallows the error and the timestamp is left alone. -/
def reattach_step (lastSetup : Int) (e : Env) (b : Bot) (v : Int) : Bot × Bool × Int :=
  if (v = 0 ∨ 20000 ≤ v ∨ b.escaped = true) ∧ backend_interval < e.time - lastSetup then
    match setup_backend e b with
    | Except.ok (b2, _) => (b2, true, e.time)
    | Except.error b2 => (b2, true, lastSetup)
  else (b, false, lastSetup)

/-- Result of one iteration of the while-loop body (lines 507-533). -/
structure TickResult where
  bot : Bot
  panics : Nat
  attempted : Bool
  lastSetup : Int
deriving Repr, DecidableEq

/-- One iteration of the while-loop body of `resource_monitor_loop`
(lines 507-533): sample and coerce the value, update the display (no core
state), run the escape/reset branch, then the throttled reattachment. -/
def tick (threshold lastSetup : Int) (e : Env) (b : Bot) : TickResult :=
  let v := read_resource_value e b
  let s1 := escape_step threshold e b v
  let s2 := reattach_step lastSetup e s1.1 v
  ⟨s2.1, s1.2, s2.2.1, s2.2.2⟩

/-- Accumulated result of running the monitor loop over a finite schedule
of environments: final bot, final `last_backend_setup`, the timestamps of
the ticks that attempted a reattachment (in order), and the total number
of `panic` invocations. -/
structure LoopResult where
  bot : Bot
  lastSetup : Int
  attachTimes : List Int
  panics : Nat
deriving Repr, DecidableEq

/-- The while-loop of `resource_monitor_loop` (lines 507-533), run over a
finite schedule of per-tick environments; the loop exits as soon as
`is_monitoring` is false at the top of an iteration. -/
def resource_monitor_loop (threshold : Int) : List Env → Int → Bot → LoopResult
  | [], lastSetup, b => ⟨b, lastSetup, [], 0⟩
  | e :: rest, lastSetup, b =>
    if b.is_monitoring then
      let r := tick threshold lastSetup e b
      let out := resource_monitor_loop threshold rest r.lastSetup r.bot
      ⟨out.bot, out.lastSetup,
        (if r.attempted then e.time :: out.attachTimes else out.attachTimes),
        r.panics + out.panics⟩
    else ⟨b, lastSetup, [], 0⟩

/-- Lines 502-505 of `resource_monitor_loop`: a session sets
`is_monitoring = True`, captures the threshold once from the start-time
environment `e0`, initializes `last_backend_setup = time()`, and then runs
the loop over the subsequent tick environments. -/
def run_session (e0 : Env) (envs : List Env) (b : Bot) : LoopResult :=
  resource_monitor_loop (get_threshold e0) envs e0.time { b with is_monitoring := true }

/-- Python truthiness of `self.pointer` in `if self.pointer:` (line 562):
`None` and `0` are falsy, every other integer is truthy. -/
def truthy (p : Option Int) : Bool :=
  match p with
  | some a => a != 0
  | none => false

/-- Embeds `ChickenBot.run_monitor` (lines 547-568): attempt
`_setup_backend` inside try/except (on a raise, report and return without
spawning); then spawn the monitor thread iff the stored `self.pointer`
is truthy. Returns the updated bot and whether a thread was spawned. -/
def run_monitor (e : Env) (b : Bot) : Bot × Bool :=
  match setup_backend e b with
  | Except.error b1 => (b1, false)
  | Except.ok (b1, _) => (b1, truthy b1.pointer)

/-- The states one `ChickenBot` instance (plus the global key hooks) can
reach from `__init__`, under the operations the program performs: loop
iterations while monitoring, the loop prologue setting `is_monitoring`,
`run_monitor`, `stop_monitor`, and the 2-second unblock timer firing. -/
inductive Reachable : Bot → Prop where
  | init : Reachable initBot
  | tickStep : ∀ (t L : Int) (e : Env) (b : Bot), Reachable b →
      b.is_monitoring = true → Reachable (tick t L e b).bot
  | loopEntry : ∀ b : Bot, Reachable b → Reachable { b with is_monitoring := true }
  | runMonitorStep : ∀ (e : Env) (b : Bot), Reachable b → Reachable (run_monitor e b).1
  | stopMonitorStep : ∀ b : Bot, Reachable b → Reachable (stop_monitor b)
  | timer : ∀ b : Bot, Reachable b → Reachable { b with keys := unblock_keys b.keys }

/-- Consecutive separation by more than the backend interval: each listed
timestamp exceeds its predecessor (initially `L`) by more than 2000 ms. -/
def sep_after (L : Int) : List Int → Prop
  | [] => True
  | t :: ts => L + backend_interval < t ∧ sep_after t ts

/-- Forget the threshold entry text of an environment (used to state that
a running session never reads it). -/
def erase_threshold (e : Env) : Env :=
  { e with thresholdText := none }

theorem walk_offsets_eq_foldl (rl : Int → Option Int) (l : List Int) (a : Int) :
    walk_offsets rl a l =
      List.foldl
        (fun addr off =>
          match rl addr with
          | some v => v + off
          | none => addr) a l := by
  induction l generalizing a with
  | nil => rfl
  | cons off rest ih => simp only [walk_offsets, List.foldl]; exact ih _

theorem setup_backend_ok_cases (e : Env) (b b' : Bot) (s : Bool)
    (h : setup_backend e b = Except.ok (b', s)) :
    b'.escaped = b.escaped ∧ b'.is_monitoring = b.is_monitoring ∧ b'.keys = b.keys ∧
      (s = false → b'.pointer = b.pointer) := by
  cases hp : e.procOpen with
  | false =>
    simp [setup_backend, hp] at h
    obtain ⟨rfl, rfl⟩ := h
    exact ⟨rfl, rfl, rfl, fun _ => rfl⟩
  | true =>
    by_cases hw : e.findWindow = 0
    · simp [setup_backend, hp, hw] at h
      obtain ⟨rfl, rfl⟩ := h
      exact ⟨rfl, rfl, rfl, fun _ => rfl⟩
    · rcases hm : e.moduleBase with _ | m
      · simp [setup_backend, setup_pointer, calculate_address, hp, hw, hm] at h
      · simp [setup_backend, setup_pointer, calculate_address, hp, hw, hm] at h
        obtain ⟨rfl, rfl⟩ := h
        exact ⟨rfl, rfl, rfl, fun hs => by simp at hs⟩

theorem setup_backend_err_cases (e : Env) (b b' : Bot)
    (h : setup_backend e b = Except.error b') :
    b'.escaped = b.escaped ∧ b'.is_monitoring = b.is_monitoring ∧ b'.keys = b.keys ∧
      b'.pointer = b.pointer ∧ e.moduleBase = none := by
  cases hp : e.procOpen with
  | false => simp [setup_backend, hp] at h
  | true =>
    by_cases hw : e.findWindow = 0
    · simp [setup_backend, hp, hw] at h
    · rcases hm : e.moduleBase with _ | m
      · simp [setup_backend, setup_pointer, calculate_address, hp, hw, hm] at h
        subst h
        exact ⟨rfl, rfl, rfl, rfl, rfl⟩
      · simp [setup_backend, setup_pointer, calculate_address, hp, hw, hm] at h

theorem setup_backend_success_chars (e : Env) (b b' : Bot)
    (h : setup_backend e b = Except.ok (b', true)) :
    e.procOpen = true ∧ e.findWindow ≠ 0 ∧
      ∃ a : Int,
        calculate_address e.moduleBase e.readLonglong (RESOURCE_CONFIG e.selectedResource) =
          Except.ok a ∧ b'.pointer = some a := by
  cases hp : e.procOpen with
  | false => simp [setup_backend, hp] at h
  | true =>
    by_cases hw : e.findWindow = 0
    · simp [setup_backend, hp, hw] at h
    · rcases hm : e.moduleBase with _ | m
      · simp [setup_backend, setup_pointer, calculate_address, hp, hw, hm] at h
      · simp [setup_backend, setup_pointer, calculate_address, hp, hw, hm] at h
        obtain ⟨rfl, -⟩ := h
        exact ⟨rfl, hw, _, rfl, rfl⟩

theorem setup_backend_no_raise (e : Env) (m : Int) (hm : e.moduleBase = some m) (b : Bot) :
    ∃ p : Bot × Bool, setup_backend e b = Except.ok p := by
  rcases hsb : setup_backend e b with b2 | p
  · exfalso
    have h := setup_backend_err_cases e b b2 hsb
    rw [hm] at h
    simp at h
  · exact ⟨p, rfl⟩

theorem reattach_frame (L : Int) (e : Env) (b : Bot) (v : Int) :
    (reattach_step L e b v).1.escaped = b.escaped ∧
    (reattach_step L e b v).1.is_monitoring = b.is_monitoring ∧
    (reattach_step L e b v).1.keys = b.keys := by
  unfold reattach_step
  split
  · rcases hsb : setup_backend e b with b2 | ⟨b2, s⟩
    · simp only [hsb]
      have h := setup_backend_err_cases e b b2 hsb
      exact ⟨h.1, h.2.1, h.2.2.1⟩
    · simp only [hsb]
      have h := setup_backend_ok_cases e b b2 s hsb
      exact ⟨h.1, h.2.1, h.2.2.1⟩
  · exact ⟨rfl, rfl, rfl⟩

/-- C2: for every module base address, resource spec and memory state,
`calculate_address` never throws and returns exactly the address obtained
by starting at moduleBase + base and folding the offsets in order, where a
successful 8-byte read at the current address turns it into
readValue + offset and a failed read leaves it unchanged. -/
theorem c2_calculate_address_resolves (mb : Int) (rl : Int → Option Int) (r : Resource) :
    calculate_address (some mb) rl r =
      Except.ok (List.foldl
        (fun addr off =>
          match rl addr with
          | some v => v + off
          | none => addr) (mb + r.base) r.offsets) := by
  simp only [calculate_address]
  exact congrArg Except.ok (walk_offsets_eq_foldl rl r.offsets (mb + r.base))

/-- C1: on a tick with coerced sample `v` and captured threshold `t`:
if `v ≤ t` and the session is not escaped, exactly one panic is invoked
and (when the key post succeeds, the case C10 covers the complement of)
`ESCAPED` becomes true; a tick with `v ≤ t` while already escaped invokes
no additional panic and stays escaped; a tick with `v > t` while escaped
clears `ESCAPED` on that tick with no panic. -/
theorem c1_escape_reset_transitions (t L : Int) (e : Env) (b : Bot) :
    (read_resource_value e b ≤ t → b.escaped = false →
      (tick t L e b).panics = 1 ∧
        (e.postOk = true → (tick t L e b).bot.escaped = true)) ∧
    (read_resource_value e b ≤ t → b.escaped = true →
      (tick t L e b).panics = 0 ∧ (tick t L e b).bot.escaped = true) ∧
    (t < read_resource_value e b → b.escaped = true →
      (tick t L e b).panics = 0 ∧ (tick t L e b).bot.escaped = false) := by
  refine ⟨fun hv he => ?_, fun hv he => ?_, fun hv he => ?_⟩
  · have hc : read_resource_value e b ≤ t ∧ b.escaped = false := ⟨hv, he⟩
    constructor
    · simp only [tick, escape_step, if_pos hc]
    · intro hp
      simp only [tick, escape_step, if_pos hc]
      rw [(reattach_frame L e (panic e b) (read_resource_value e b)).1]
      simp [panic, hp]
  · have h1 : ¬(read_resource_value e b ≤ t ∧ b.escaped = false) := by
      intro hc; rw [he] at hc; simp at hc
    have h2 : ¬(t < read_resource_value e b ∧ b.escaped = true) := by
      intro hc; exact absurd hv (not_le.mpr hc.1)
    constructor
    · simp only [tick, escape_step, if_neg h1, if_neg h2]
    · simp only [tick, escape_step, if_neg h1, if_neg h2]
      rw [(reattach_frame L e b (read_resource_value e b)).1]
      exact he
  · have h1 : ¬(read_resource_value e b ≤ t ∧ b.escaped = false) := by
      intro hc; rw [he] at hc; simp at hc
    have h2 : t < read_resource_value e b ∧ b.escaped = true := ⟨hv, he⟩
    constructor
    · simp only [tick, escape_step, if_neg h1, if_pos h2]
    · simp only [tick, escape_step, if_neg h1, if_pos h2]
      rw [(reattach_frame L e { b with escaped := false }
        (read_resource_value e b)).1]

/-- Concrete environment for the C1 witness tick: process and window
available, all reads fail (sample 0), key post succeeds, time 0. -/
def env_c1 : Env :=
  ⟨true, 1, some 0, fun _ => none, fun _ => none, "hp", none, true, 0⟩

/-- Witness for C1: from the fresh bot (not escaped) with sample 0 and
threshold 500, the tick invokes exactly one panic and sets escaped. -/
theorem c1_escape_reset_transitions_witness :
    (tick 500 0 env_c1 initBot).panics = 1 ∧
      (tick 500 0 env_c1 initBot).bot.escaped = true := by
  have h := (c1_escape_reset_transitions 500 0 env_c1 initBot).1 (by decide) rfl
  exact ⟨h.1, h.2 rfl⟩

/-- C5: sampling at the resolved pointer never surfaces an error: a
missing process handle, an unset pointer and a failing read are all
absorbed to the value 0 by `read_resource_value` (and the subsequent
`int()` coercion is the identity, `read_int` only ever returning
integers), while a successful read yields the read value. -/
theorem c5_sampling_absorbs_faults (e : Env) (b : Bot) :
    (b.pm = false → read_resource_value e b = 0) ∧
    (b.pointer = none → read_resource_value e b = 0) ∧
    (∀ a : Int, b.pointer = some a → e.readInt a = none →
      read_resource_value e b = 0) ∧
    (∀ a v : Int, b.pm = true → b.pointer = some a → e.readInt a = some v →
      read_resource_value e b = v) := by
  refine ⟨fun hpm => ?_, fun hptr => ?_, fun a hptr hr => ?_, fun a v hpm hptr hr => ?_⟩
  · simp [read_resource_value, hpm]
  · cases hpm : b.pm <;> simp [read_resource_value, hpm, hptr]
  · cases hpm : b.pm <;> simp [read_resource_value, hpm, hptr, hr]
  · simp [read_resource_value, hpm, hptr, hr]

/-- Bot state for the C5 witness: monitoring with a resolved pointer whose
read faults. -/
def bot_c5 : Bot :=
  ⟨false, true, some 3, true, some 1, ⟨false, false⟩⟩

/-- Environment for the C5 witness: every 4-byte read raises. -/
def env_c5 : Env :=
  ⟨true, 1, some 0, fun _ => none, fun _ => none, "hp", none, true, 0⟩

/-- Witness for C5: with a set pointer whose read faults, the sample is 0. -/
theorem c5_sampling_absorbs_faults_witness :
    read_resource_value env_c5 bot_c5 = 0 :=
  (c5_sampling_absorbs_faults env_c5 bot_c5).2.2.1 3 rfl rfl

/-- C10: when posting the escape key-down raises, `panic` leaves `ESCAPED`
and the key hooks untouched and clears `is_monitoring`, stopping the
session; `ESCAPED` is set (and the keys blocked) only when the post
succeeds, the key blocking itself being total. -/
theorem c10_panic_delivery_failure (e : Env) (b : Bot) :
    (e.postOk = false →
      (panic e b).escaped = b.escaped ∧ (panic e b).is_monitoring = false ∧
        (panic e b).keys = b.keys ∧ (panic e b).pointer = b.pointer) ∧
    (e.postOk = true →
      (panic e b).escaped = true ∧ (panic e b).keys = ⟨true, true⟩) := by
  constructor <;> intro hp <;>
    simp [panic, hp, kb_panic, block_key, set_blocked]

/-- Environment for the C10 witness: the key post raises. -/
def env_c10 : Env :=
  ⟨true, 1, some 0, fun _ => none, fun _ => none, "hp", none, false, 0⟩

/-- Witness for C10: a failing post leaves escaped as it was and stops the
session. -/
theorem c10_panic_delivery_failure_witness :
    (panic env_c10 initBot).escaped = initBot.escaped ∧
      (panic env_c10 initBot).is_monitoring = false := by
  have h := (c10_panic_delivery_failure env_c10 initBot).1 rfl
  exact ⟨h.1, h.2.1⟩

theorem escape_step_keys (t : Int) (e : Env) (b : Bot) (v : Int) :
    (escape_step t e b v).1.keys = b.keys ∨
      (escape_step t e b v).1.keys = ⟨true, true⟩ := by
  unfold escape_step
  split
  · unfold panic
    split
    · right
      simp [kb_panic, block_key, set_blocked]
    · left
      rfl
  · split
    · left
      rfl
    · left
      rfl

theorem tick_keys (t L : Int) (e : Env) (b : Bot) :
    (tick t L e b).bot.keys = b.keys ∨ (tick t L e b).bot.keys = ⟨true, true⟩ := by
  have h := (reattach_frame L e (escape_step t e b (read_resource_value e b)).1
    (read_resource_value e b)).2.2
  simp only [tick]
  rw [h]
  exact escape_step_keys t e b (read_resource_value e b)

theorem run_monitor_frame (e : Env) (b : Bot) :
    (run_monitor e b).1.keys = b.keys ∧ (run_monitor e b).1.escaped = b.escaped ∧
      (run_monitor e b).1.is_monitoring = b.is_monitoring := by
  unfold run_monitor
  rcases hsb : setup_backend e b with b1 | ⟨b1, s⟩
  · simp only [hsb]
    have h := setup_backend_err_cases e b b1 hsb
    exact ⟨h.2.2.1, h.1, h.2.1⟩
  · simp only [hsb]
    have h := setup_backend_ok_cases e b b1 s hsb
    exact ⟨h.2.2.1, h.1, h.2.1⟩

theorem unblock_keys_of_eq (s : KeyState) (h : s.esc = s.space) :
    unblock_keys s = ⟨false, false⟩ := by
  rcases s with ⟨e1, sp⟩
  simp only at h
  subst h
  cases e1 <;> rfl

/-- Every reachable state of the program has the two key hooks in the same
state: the keys are only ever blocked together (by `_kb_panic`) and only
ever unblocked through `unblock_keys`. -/
theorem reachable_keys_inv (b : Bot) (h : Reachable b) :
    b.keys.esc = b.keys.space := by
  induction h with
  | init => rfl
  | tickStep t L e b hb hm ih =>
    rcases tick_keys t L e b with hk | hk <;> rw [hk]
    exact ih
  | loopEntry b hb ih => exact ih
  | runMonitorStep e b hb ih =>
    rw [(run_monitor_frame e b).1]
    exact ih
  | stopMonitorStep b hb ih =>
    simp only [stop_monitor]
    rw [unblock_keys_of_eq b.keys ih]
  | timer b hb ih =>
    simp only
    rw [unblock_keys_of_eq b.keys ih]

/-- C7: from every state a session can actually be in, `stop_monitor`
results in `ESCAPED = false`, `is_monitoring = false`, and both the escape
and space keys unblocked (the keys of reachable states are only ever
blocked together, so the shared `except KeyError` clause of
`unblock_keys` cannot strand the space key). -/
theorem c7_stop_resets (b : Bot) (h : Reachable b) :
    (stop_monitor b).escaped = false ∧ (stop_monitor b).is_monitoring = false ∧
      (stop_monitor b).keys = ⟨false, false⟩ := by
  refine ⟨rfl, rfl, ?_⟩
  simp only [stop_monitor]
  exact unblock_keys_of_eq b.keys (reachable_keys_inv b h)

/-- Witness for C7: stopping from the freshly initialized bot. -/
theorem c7_stop_resets_witness :
    (stop_monitor initBot).escaped = false ∧
      (stop_monitor initBot).is_monitoring = false ∧
      (stop_monitor initBot).keys = ⟨false, false⟩ :=
  c7_stop_resets initBot Reachable.init

/-- C8 counterexample: called from the key state in which only the space
key is blocked, `unblock_keys` does NOT leave both keys unblocked —
unblocking the not-blocked escape key raises `KeyError`, and the shared
`except` clause catches it after skipping the space unblock, so the space
key stays blocked. This refutes "after any call both the escape and space
keys are left unblocked". -/
theorem c8_release_counterexample :
    ¬ unblock_keys ⟨false, true⟩ = ⟨false, false⟩ := by decide

/-- C8 amended: `unblock_keys` is idempotent and never raises (the
`KeyError` is always caught); after any call the escape key is unblocked;
and from every state in which the space key is blocked only if the escape
key is — which covers every state this program produces, since it only
blocks the two keys together, and in particular covers a call with
neither key blocked and any repeated call — both keys are left
unblocked. -/
theorem c8_release_idempotent_amended :
    (∀ s : KeyState, unblock_keys (unblock_keys s) = unblock_keys s) ∧
    (∀ s : KeyState, (unblock_keys s).esc = false) ∧
    (∀ s : KeyState, (s.space = true → s.esc = true) →
      unblock_keys s = ⟨false, false⟩) := by
  refine ⟨fun s => ?_, fun s => ?_, fun s h => ?_⟩
  · rcases s with ⟨e1, sp⟩
    cases e1 <;> cases sp <;> decide
  · rcases s with ⟨e1, sp⟩
    cases e1 <;> cases sp <;> decide
  · rcases s with ⟨e1, sp⟩
    cases e1 with
    | false =>
      cases sp with
      | false => decide
      | true => exact absurd (h rfl) (by decide)
    | true => cases sp <;> decide

/-- Witness for C8 (amended): a call with neither key blocked, and the
repeated call on its result, leave both keys unblocked. -/
theorem c8_release_idempotent_amended_witness :
    unblock_keys (unblock_keys ⟨false, false⟩) = unblock_keys ⟨false, false⟩ ∧
      unblock_keys ⟨false, false⟩ = ⟨false, false⟩ :=
  ⟨c8_release_idempotent_amended.1 ⟨false, false⟩,
    c8_release_idempotent_amended.2.2 ⟨false, false⟩ (fun h => absurd h (by decide))⟩

/-- Environment for the C3 counterexample: the process-open step fails;
everything else would let the pointer be recomputed. -/
def env_c3 : Env :=
  ⟨false, 1, some 0, fun _ => none, fun _ => none, "hp", none, true, 0⟩

/-- Bot for the C3 counterexample: a stale pointer is already stored. -/
def bot_c3 : Bot :=
  ⟨false, false, some 1, false, none, ⟨false, false⟩⟩

/-- C3 counterexample: when the process-open step fails, `_setup_backend`
returns failure WITHOUT recomputing the pointer — the stored pointer stays
`some 1`, even though recomputing it in this environment would store
0x03B9AD28. This refutes "in every call the resolved pointer is
(re)computed and stored regardless of whether those steps fail": the
early `return` on a failed step skips `setup_pointer` entirely. -/
theorem c3_attach_counterexample :
    setup_backend env_c3 bot_c3 = Except.ok (bot_c3, false) ∧
      bot_c3.pointer = some 1 ∧
      calculate_address env_c3.moduleBase env_c3.readLonglong
        (RESOURCE_CONFIG env_c3.selectedResource) = Except.ok 0x03B9AD28 ∧
      (1 : Int) ≠ 0x03B9AD28 :=
  ⟨rfl, rfl, rfl, by decide⟩

/-- C3 amended: `_setup_backend` returns success only if both opening the
process and finding the window succeed, and on success the pointer is
freshly recomputed and stored (meaningful or not); but when the
process-open or window-find step fails, the function returns failure
early and the stored pointer is left unchanged, not recomputed. -/
theorem c3_attach_amended (e : Env) (b : Bot) :
    (∀ b' : Bot, setup_backend e b = Except.ok (b', true) →
      e.procOpen = true ∧ e.findWindow ≠ 0 ∧
        ∃ a : Int,
          calculate_address e.moduleBase e.readLonglong
            (RESOURCE_CONFIG e.selectedResource) = Except.ok a ∧
          b'.pointer = some a) ∧
    (e.procOpen = false → setup_backend e b = Except.ok (b, false)) ∧
    (e.procOpen = true → e.findWindow = 0 →
      setup_backend e b = Except.ok ({ b with pm := true }, false)) ∧
    (∀ (b' : Bot) (s : Bool), setup_backend e b = Except.ok (b', s) → s = false →
      b'.pointer = b.pointer) := by
  refine ⟨fun b' h => setup_backend_success_chars e b b' h, fun hp => ?_,
    fun hp hw => ?_,
    fun b' s h hs => (setup_backend_ok_cases e b b' s h).2.2.2 hs⟩
  · simp [setup_backend, hp]
  · simp [setup_backend, hp, hw]

/-- Environment for the C3 witness: both attach steps succeed. -/
def env_c3w : Env :=
  ⟨true, 5, some 0, fun _ => none, fun _ => none, "hp", none, true, 0⟩

/-- The bot stored by a successful attach in `env_c3w` from `initBot`. -/
def bot_c3w : Bot :=
  ⟨false, false, some 0x03B9AD28, true, some 5, ⟨false, false⟩⟩

/-- Witness for C3 (amended): a successful attach implies both steps
succeeded and the freshly computed address was stored. -/
theorem c3_attach_amended_witness :
    env_c3w.procOpen = true ∧ env_c3w.findWindow ≠ 0 ∧
      ∃ a : Int,
        calculate_address env_c3w.moduleBase env_c3w.readLonglong
          (RESOURCE_CONFIG env_c3w.selectedResource) = Except.ok a ∧
        bot_c3w.pointer = some a :=
  (c3_attach_amended env_c3w initBot).1 bot_c3w rfl

/-- Environment for the C4 counterexample: process open fails. -/
def env_c4 : Env :=
  ⟨false, 1, some 0, fun _ => none, fun _ => none, "hp", none, true, 0⟩

/-- Bot for the C4 counterexample: a session is already running and a
stale pointer from an earlier attach is stored. -/
def bot_c4 : Bot :=
  ⟨false, true, some 5, true, some 1, ⟨false, false⟩⟩

/-- C4 counterexample: with a session already running and a stale stored
pointer, a `run_monitor` call whose attach fails (the process cannot be
opened) still spawns a polling thread: the function has no
already-running guard and gates the spawn on the truthiness of the stored
`self.pointer`, not on the attach outcome. This refutes both "no-op when
a session is already running" and "a polling thread is spawned only on
successful attach". -/
theorem c4_run_monitor_counterexample :
    bot_c4.is_monitoring = true ∧ env_c4.procOpen = false ∧
      (run_monitor env_c4 bot_c4).2 = true :=
  ⟨rfl, rfl, rfl⟩

/-- C4 amended: `run_monitor` contains no already-running guard (the GUI
enforces single-start by swapping the Start/Stop button); when the attach
attempt raises it reports the error and spawns no thread; otherwise it
spawns a polling thread iff the stored pointer is truthy afterwards — in
particular, on a fresh bot whose pointer was never stored, a failed
process open reports an error, leaves the state idle and spawns no
polling thread. -/
theorem c4_run_monitor_amended (e : Env) (b : Bot) :
    (∀ b' : Bot, setup_backend e b = Except.error b' →
      run_monitor e b = (b', false)) ∧
    (∀ (b' : Bot) (s : Bool), setup_backend e b = Except.ok (b', s) →
      run_monitor e b = (b', truthy b'.pointer)) ∧
    (e.procOpen = false → b.pointer = none → run_monitor e b = (b, false)) := by
  refine ⟨fun b' h => ?_, fun b' s h => ?_, fun hp hptr => ?_⟩
  · simp [run_monitor, h]
  · simp [run_monitor, h]
  · simp [run_monitor, setup_backend, truthy, hp, hptr]

/-- Witness for C4 (amended): a fresh bot plus a failed process open
yields no spawned thread and an unchanged state. -/
theorem c4_run_monitor_amended_witness :
    run_monitor env_c4 initBot = (initBot, false) :=
  (c4_run_monitor_amended env_c4 initBot).2.2 rfl rfl

theorem reattach_chars (L : Int) (e : Env) (b : Bot) (v : Int) (m : Int)
    (hm : e.moduleBase = some m) :
    ((reattach_step L e b v).2.1 = true →
      (reattach_step L e b v).2.2 = e.time ∧ L + backend_interval < e.time) ∧
    ((reattach_step L e b v).2.1 = false → (reattach_step L e b v).2.2 = L) := by
  unfold reattach_step
  split
  · next hc =>
    obtain ⟨⟨b2, s⟩, hp⟩ := setup_backend_no_raise e m hm b
    simp only [hp]
    refine ⟨fun _ => ⟨by simp, ?_⟩, fun h => by simp at h⟩
    have h2 := hc.2
    simp only [backend_interval] at h2 ⊢
    omega
  · exact ⟨fun h => absurd h (by simp), fun _ => rfl⟩

theorem tick_attach_chars (t L : Int) (e : Env) (b : Bot) (m : Int)
    (hm : e.moduleBase = some m) :
    ((tick t L e b).attempted = true →
      (tick t L e b).lastSetup = e.time ∧ L + backend_interval < e.time) ∧
    ((tick t L e b).attempted = false → (tick t L e b).lastSetup = L) := by
  simp only [tick]
  exact reattach_chars L e _ _ m hm

/-- As long as every reattachment attempt completes without raising (the
module lookup succeeds), the attempted-reattachment timestamps produced by
the monitor loop are consecutively separated by more than the 2-second
backend interval. -/
theorem loop_sep (t : Int) (envs : List Env) :
    ∀ (L : Int) (b : Bot),
      (∀ e ∈ envs, ∃ m : Int, e.moduleBase = some m) →
      sep_after L (resource_monitor_loop t envs L b).attachTimes := by
  induction envs with
  | nil =>
    intro L b _
    trivial
  | cons e rest ih =>
    intro L b hmod
    obtain ⟨m, hm⟩ := hmod e (List.mem_cons_self e rest)
    have hrest : ∀ e2 ∈ rest, ∃ m2 : Int, e2.moduleBase = some m2 :=
      fun e2 he2 => hmod e2 (List.mem_cons_of_mem e he2)
    simp only [resource_monitor_loop]
    split
    · cases hatt : (tick t L e b).attempted with
      | false =>
        have hl := (tick_attach_chars t L e b m hm).2 hatt
        simp only [hatt, hl]
        exact ih L (tick t L e b).bot hrest
      | true =>
        have hl := (tick_attach_chars t L e b m hm).1 hatt
        simp only [hatt, hl.1]
        exact ⟨hl.2, ih e.time (tick t L e b).bot hrest⟩
    · trivial

/-- Bot for the C6 inputs: a running session with no resolved pointer
(so every sample is 0 and the reconnection trigger holds on each tick). -/
def bot_c6 : Bot :=
  ⟨false, true, none, true, some 1, ⟨false, false⟩⟩

/-- First C6 counterexample tick: the module lookup fails, so the
reattachment attempt raises. -/
def env_c6a : Env :=
  ⟨true, 1, none, fun _ => none, fun _ => none, "hp", none, true, 2001⟩

/-- Second C6 counterexample tick, 50 ms later, same failure. -/
def env_c6b : Env :=
  ⟨true, 1, none, fun _ => none, fun _ => none, "hp", none, true, 2051⟩

/-- C6 counterexample: on two consecutive ticks 50 ms apart, both with the
trigger condition holding, the loop attempts a backend reattachment BOTH
times: each attempt raises inside `setup_pointer` (module lookup failure),
the `except Exception: pass` swallows it, and `last_backend_setup` is
never advanced, so the 2-second throttle does not engage. This refutes
"reattachment is attempted at most once per 2-second window". -/
theorem c6_reattach_throttle_counterexample :
    (resource_monitor_loop 500 [env_c6a, env_c6b] 0 bot_c6).attachTimes =
        [2001, 2051] ∧
      env_c6b.time - env_c6a.time = 50 ∧
      ¬ sep_after 0
        (resource_monitor_loop 500 [env_c6a, env_c6b] 0 bot_c6).attachTimes := by
  refine ⟨rfl, rfl, fun h => ?_⟩
  have h2 : sep_after 0 ([2001, 2051] : List Int) := h
  have h3 := h2.2.1
  simp only [backend_interval] at h3
  omega

/-- C6 amended: whenever every reattachment attempt completes without
raising (module lookup succeeds; this includes attempts that merely fail
to open the process or find the window), consecutive reattachment
attempts are separated by more than the 2-second interval even if the
trigger condition holds on every 50 ms tick; but an attempt that raises
while recomputing the pointer does not advance the throttle timestamp, so
the next tick may attempt again immediately. A failed attempt is
swallowed either way, and keeps the previously resolved pointer: a
non-raising failed attach returns it untouched, and a raising one
propagates the state from before the pointer assignment. -/
theorem c6_reattach_throttle_amended :
    (∀ (t : Int) (envs : List Env) (L : Int) (b : Bot),
      (∀ e ∈ envs, ∃ m : Int, e.moduleBase = some m) →
      sep_after L (resource_monitor_loop t envs L b).attachTimes) ∧
    (∀ (e : Env) (b b' : Bot), setup_backend e b = Except.ok (b', false) →
      b'.pointer = b.pointer) ∧
    (∀ (e : Env) (b b' : Bot), setup_backend e b = Except.error b' →
      b'.pointer = b.pointer) :=
  ⟨fun t envs L b h => loop_sep t envs L b h,
    fun e b b' h => (setup_backend_ok_cases e b b' false h).2.2.2 rfl,
    fun e b b' h => (setup_backend_err_cases e b b' h).2.2.2.1⟩

/-- A non-raising C6 tick environment for the witness. -/
def env_c6w : Env :=
  ⟨true, 1, some 0, fun _ => none, fun _ => none, "hp", none, true, 2001⟩

/-- Witness for C6 (amended): a one-tick schedule with a successful module
lookup yields throttle-separated attach timestamps. -/
theorem c6_reattach_throttle_amended_witness :
    sep_after 0 (resource_monitor_loop 500 [env_c6w] 0 bot_c6).attachTimes :=
  c6_reattach_throttle_amended.1 500 [env_c6w] 0 bot_c6
    (fun e he => ⟨0, by rw [List.mem_singleton] at he; subst he; rfl⟩)

theorem tick_erase (t L : Int) (e : Env) (b : Bot) :
    tick t L (erase_threshold e) b = tick t L e b := by
  rcases e with ⟨p, fw, mb, rl, ri, sr, tt, po, tm⟩
  rfl

/-- The monitor loop never reads the threshold entry text: runs over tick
schedules that agree on everything except that text coincide. -/
theorem loop_respects_erase (t : Int) (envs1 : List Env) :
    ∀ (envs2 : List Env) (L : Int) (b : Bot),
      envs1.map erase_threshold = envs2.map erase_threshold →
      resource_monitor_loop t envs1 L b = resource_monitor_loop t envs2 L b := by
  induction envs1 with
  | nil =>
    intro envs2 L b h
    cases envs2 with
    | nil => rfl
    | cons x xs => simp at h
  | cons e1 rest1 ih =>
    intro envs2 L b h
    cases envs2 with
    | nil => simp at h
    | cons e2 rest2 =>
      simp only [List.map_cons, List.cons.injEq] at h
      obtain ⟨h1, h2⟩ := h
      have htick : tick t L e1 b = tick t L e2 b := by
        rw [← tick_erase t L e1 b, h1, tick_erase]
      have htime0 := congrArg Env.time h1
      have htime : e1.time = e2.time := htime0
      simp only [resource_monitor_loop]
      rw [htick, htime,
        ih rest2 (tick t L e2 b).lastSetup (tick t L e2 b).bot h2]

/-- C9: the monitoring session captures the threshold exactly once at
start (`get_threshold` of the start-time environment, before the loop);
two runs from the same start environment and bot whose per-tick
environments agree on everything except the displayed threshold text are
indistinguishable: same final state, same reattachment times, same panic
count on every tick. -/
theorem c9_threshold_captured_once (e0 : Env) (b : Bot) (envs1 envs2 : List Env)
    (h : envs1.map erase_threshold = envs2.map erase_threshold) :
    run_session e0 envs1 b = run_session e0 envs2 b := by
  unfold run_session
  exact loop_respects_erase (get_threshold e0) envs1 envs2 e0.time
    { b with is_monitoring := true } h

/-- C9 witness env: start-time environment capturing threshold 500. -/
def env_c9s : Env :=
  ⟨true, 1, some 0, fun _ => none, fun _ => none, "hp", some 500, true, 0⟩

/-- C9 witness env: a tick whose displayed threshold text was edited
to 7. -/
def env_c9a : Env :=
  ⟨true, 1, some 0, fun _ => none, fun _ => none, "hp", some 7, true, 100⟩

/-- C9 witness env: the same tick with the text edited to 9 instead. -/
def env_c9b : Env :=
  ⟨true, 1, some 0, fun _ => none, fun _ => none, "hp", some 9, true, 100⟩

/-- Witness for C9: editing the displayed threshold text mid-session
(7 vs 9) does not change the session's behavior. -/
theorem c9_threshold_captured_once_witness :
    run_session env_c9s [env_c9a] initBot = run_session env_c9s [env_c9b] initBot :=
  c9_threshold_captured_once env_c9s initBot [env_c9a] [env_c9b] rfl

end ChickenBot
